import Mathlib

/-!
Shallow embedding of the Marker abstraction of the zoloto repository
(`zoloto/marker.py`), together with theorems checking the natural-language
specification against it.

Modelling conventions:
* Python floats and numpy scalars are modelled as exact rationals (`ℚ`);
  the spec states every numeric property in exact mathematical terms.
* `numpy.ndarray` corner matrices are modelled as `List (ℚ × ℚ)` (four
  corner points in detector order); the 3-element pose vectors as `Vec3`.
  `ndarray.tolist()` / `numpy.array(...)` on these shapes are mutually
  inverse, so the serialized dictionary stores the same data.
* `cv2.aruco.estimatePoseSingleMarkers` is an external capability; it is
  modelled as an opaque function parameter `Estimator` (the `[0][0]`
  indexing of its result is folded into the parameter: it stands for the
  first result pair).
* `numpy.arctan2` is an external numeric primitive whose values only flow
  through unchanged; it is modelled as an opaque function parameter `At2`.
* `numpy.linalg.norm` composed with Python's `int(...)` cast is exact
  integer arithmetic (truncation toward zero of the Euclidean norm, which
  is nonnegative, hence its floor); it is embedded by the computable
  `truncNorm` below, proved equal to `⌊Real.sqrt ‖t‖²⌋` later.
* Exceptions are modelled with `Except`: a pose-dependent accessor returns
  `Except MissingCalibrationsError α`.
* `@lru_cache` on `_get_pose_vectors` memoizes the success path; the
  function is pure given the estimator, so repeated calls are modelled by
  repeated evaluation, and the number of estimator invocations performed
  by a sequence of accessor calls is modelled by `estimatorInvocations`.
-/

namespace Zoloto

/-- Modelled from the spec: `zoloto/coords.py` is not in the sources.
2D pixel coordinates `{x, y}`, an immutable ordered pair. -/
structure Coordinates where
  x : ℚ
  y : ℚ
deriving DecidableEq, Repr

/-- Modelled from the spec: `zoloto/coords.py` is not in the sources.
3D cartesian coordinates `{x, y, z}`, immutable. -/
structure ThreeDCoordinates where
  x : ℚ
  y : ℚ
  z : ℚ
deriving DecidableEq, Repr

/-- Modelled from the spec: `zoloto/coords.py` is not in the sources.
Rotation-vector components `{rot_x, rot_y, rot_z}` taken directly from the
pose estimator's rotation vector. -/
structure Orientation where
  rot_x : ℚ
  rot_y : ℚ
  rot_z : ℚ
deriving DecidableEq, Repr

/-- Modelled from the spec: `zoloto/coords.py` is not in the sources.
Spherical triple `{rot_x, rot_y, dist}`.  The `dist` field stores the value
of the marker's `distance` accessor, which is an integer. -/
structure Spherical where
  rot_x : ℚ
  rot_y : ℚ
  dist : ℤ
deriving DecidableEq, Repr

/-- Modelled from the spec: `zoloto/calibration.py` is not in the sources.
An immutable pair of camera intrinsic matrix and distortion coefficients,
opaque to this core beyond being passed to the pose estimator. -/
structure CalibrationParameters where
  camera_matrix : List (List ℚ)
  distance_coefficients : List ℚ
deriving DecidableEq, Repr

/-- Modelled from the spec: `zoloto/exceptions.py` is not in the sources.
The single domain error: pose-dependent information was requested on a lazy
Marker that has no calibration parameters.  It carries no data. -/
structure MissingCalibrationsError where
deriving DecidableEq, Repr

/-- A 3-element numeric vector (one `rvec` or `tvec` of the pose). -/
structure Vec3 where
  x : ℚ
  y : ℚ
  z : ℚ
deriving DecidableEq, Repr

/-- The external pose estimator (`cv2.aruco.estimatePoseSingleMarkers`
restricted to a single polygon, with the `rvec[0][0], tvec[0][0]`
projection applied): corners, size and calibration in, one
(rotation vector, translation vector) pair out. -/
abbrev Estimator : Type :=
  List (ℚ × ℚ) → ℤ → CalibrationParameters → Vec3 × Vec3

/-- The external two-argument arctangent (`numpy.arctan2`), treated as an
opaque numeric primitive. -/
abbrev At2 : Type := ℚ → ℚ → ℚ

/-- Truncation toward zero of the Euclidean norm of a 3-vector:
the embedding of `int(numpy.linalg.norm(t))`.  The norm is nonnegative, so
truncation toward zero is the floor, and `⌊Real.sqrt q⌋ = Nat.sqrt ⌊q⌋`
for `0 ≤ q` (proved below as `truncNorm_eq_floor_sqrt`). -/
def truncNorm (t : Vec3) : ℤ :=
  (Nat.sqrt (t.x ^ 2 + t.y ^ 2 + t.z ^ 2).floor.toNat : ℤ)

/-- The Marker entity of `zoloto/marker.py`.  Field names follow the
source's private attributes (`__id`, `__pixel_corners`, `__size`,
`__camera_calibration_params`, `__precalculated_vectors`). -/
structure Marker where
  id : ℤ
  pixel_corners : List (ℚ × ℚ)
  size : ℤ
  calibration_params : Option CalibrationParameters := none
  precalculated_vectors : Option (Vec3 × Vec3) := none
deriving DecidableEq, Repr

namespace Marker

/-- Source `Marker._is_eager`: whether precalculated pose vectors were
supplied at construction. -/
def isEager (m : Marker) : Bool :=
  m.precalculated_vectors.isSome

/-- Source `Marker.pixel_corners` property: the raw corner matrix converted
to `Coordinates` values, preserving order. -/
def pixelCorners (m : Marker) : List Coordinates :=
  m.pixel_corners.map (fun c => ⟨c.1, c.2⟩)

/-- Source `Marker.pixel_centre` property: unpacks `tl, _, br, _` from the
corner list (which therefore must have exactly 4 entries; otherwise the
Python unpacking raises, modelled by `none`) and returns
`(tl.x + size/2 - 1, br.y - size/2)`. -/
def pixelCentre (m : Marker) : Option Coordinates :=
  match m.pixel_corners with
  | [tl, _, br, _] =>
      some ⟨tl.1 + (m.size : ℚ) / 2 - 1, br.2 - (m.size : ℚ) / 2⟩
  | _ => none

/-- Source `Marker._get_pose_vectors`: return the precalculated vectors if
present; otherwise fail with `MissingCalibrationsError` when no calibration
parameters are held; otherwise invoke the external pose estimator. -/
def getPoseVectors (e : Estimator) (m : Marker) :
    Except MissingCalibrationsError (Vec3 × Vec3) :=
  match m.precalculated_vectors with
  | some v => .ok v
  | none =>
      match m.calibration_params with
      | none => .error ⟨⟩
      | some cp => .ok (e m.pixel_corners m.size cp)

/-- Source `Marker._rvec`: first component of the pose vectors. -/
def rvec (e : Estimator) (m : Marker) :
    Except MissingCalibrationsError Vec3 :=
  (getPoseVectors e m).map Prod.fst

/-- Source `Marker._tvec`: second component of the pose vectors. -/
def tvec (e : Estimator) (m : Marker) :
    Except MissingCalibrationsError Vec3 :=
  (getPoseVectors e m).map Prod.snd

/-- Source `Marker.distance`: `int(linalg.norm(self._tvec))`, the Euclidean
norm of the translation vector truncated toward zero. -/
def distance (e : Estimator) (m : Marker) :
    Except MissingCalibrationsError ℤ :=
  (tvec e m).map truncNorm

/-- Source `Marker.orientation`: `Orientation(*self._rvec)`. -/
def orientation (e : Estimator) (m : Marker) :
    Except MissingCalibrationsError Orientation :=
  (rvec e m).map (fun r => ⟨r.x, r.y, r.z⟩)

/-- Source `Marker.spherical`: unpacks `x, y, z = self._tvec` and returns
`Spherical(rot_x=arctan2(y, z), rot_y=arctan2(x, z), dist=self.distance)`. -/
def spherical (e : Estimator) (a : At2) (m : Marker) :
    Except MissingCalibrationsError Spherical :=
  (tvec e m).map (fun t => ⟨a t.y t.z, a t.x t.z, truncNorm t⟩)

/-- Source `Marker.cartesian`: `ThreeDCoordinates(*self._tvec)`. -/
def cartesian (e : Estimator) (m : Marker) :
    Except MissingCalibrationsError ThreeDCoordinates :=
  (tvec e m).map (fun t => ⟨t.x, t.y, t.z⟩)

end Marker

/-- The plain mapping produced by `Marker.as_dict`.  The keys `id`, `size`
and `pixel_corners` are always present and are modelled as plain fields;
the optionally present keys `rvec` and `tvec` are modelled as `Option`
fields (`none` = key absent). -/
structure MarkerDictData where
  id : ℤ
  size : ℤ
  pixel_corners : List (ℚ × ℚ)
  rvec : Option Vec3 := none
  tvec : Option Vec3 := none
deriving DecidableEq, Repr

namespace Marker

/-- Source `Marker.as_dict`: always emits `id`, `size` and the corner
matrix as nested lists; then tries to add `rvec` and `tvec`, catching
`MissingCalibrationsError` and omitting both keys when it is raised. -/
def asDict (e : Estimator) (m : Marker) : MarkerDictData :=
  let base : MarkerDictData :=
    { id := m.id, size := m.size, pixel_corners := m.pixel_corners }
  match getPoseVectors e m with
  | .ok (r, t) => { base with rvec := some r, tvec := some t }
  | .error _ => base

/-- Source `Marker.from_dict`: rebuilds a Marker from `id`, `pixel_corners`
and `size`, passing `None` calibration parameters; the precalculated pair
is appended only when both the `rvec` and the `tvec` key are present. -/
def fromDict (d : MarkerDictData) : Marker :=
  { id := d.id
    pixel_corners := d.pixel_corners
    size := d.size
    calibration_params := none
    precalculated_vectors :=
      match d.rvec, d.tvec with
      | some r, some t => some (r, t)
      | _, _ => none }

/-- Number of times one evaluation of `_get_pose_vectors`'s body invokes
the external pose estimator: zero on the eager path and on the
missing-calibration path, one on the estimation path. -/
def estimatorCallsPerResolution (m : Marker) : Nat :=
  match m.precalculated_vectors with
  | some _ => 0
  | none =>
      match m.calibration_params with
      | none => 0
      | some _ => 1

end Marker

/-- One pose-touching operation of the public surface, for stating how many
estimator invocations a sequence of accessor calls performs. -/
inductive PoseAccessor where
  | distance
  | orientationAcc
  | cartesian
  | spherical
  | asDict
deriving DecidableEq, Repr

namespace Marker

/-- Total number of external-estimator invocations performed by a sequence
of accessor calls on one Marker.  Every listed accessor resolves the pose
vectors through the `lru_cache`-memoized `_get_pose_vectors`, whose body
therefore runs at most once per Marker on the success paths; on the eager
and missing-calibration paths it performs no estimator call at all.  Hence
the total is `estimatorCallsPerResolution` when at least one accessor is
called, and zero otherwise. -/
def estimatorInvocations (m : Marker) (calls : List PoseAccessor) : Nat :=
  if calls.isEmpty then 0 else m.estimatorCallsPerResolution

end Marker

/-- Key numeric fact justifying the embedding of `int(linalg.norm(t))`:
for a nonnegative rational `q`, the floor of its real square root is
`Nat.sqrt ⌊q⌋`.  Since the Euclidean norm is nonnegative, truncation
toward zero coincides with the floor there. -/
theorem natSqrt_floor_eq_floor_sqrt (q : ℚ) (hq : 0 ≤ q) :
    (Nat.sqrt q.floor.toNat : ℤ) = ⌊Real.sqrt (q : ℝ)⌋ := by
  set m : ℕ := q.floor.toNat with hm
  set n : ℕ := Nat.sqrt m with hn
  have hfl : ((m : ℤ) : ℚ) = (⌊q⌋ : ℚ) := by
    have h0 : (m : ℤ) = ⌊q⌋ := Int.toNat_of_nonneg (Int.floor_nonneg.mpr hq)
    exact_mod_cast h0
  have hmq : (m : ℚ) ≤ q := by
    calc ((m : ℤ) : ℚ) = (⌊q⌋ : ℚ) := hfl
    _ ≤ q := Int.floor_le q
  have hqm : q < (m : ℚ) + 1 := by
    have h1 : q < (⌊q⌋ : ℚ) + 1 := Int.lt_floor_add_one q
    rw [← hfl] at h1
    exact_mod_cast h1
  have hlow : (n : ℝ) ≤ Real.sqrt (q : ℝ) := by
    calc (n : ℝ) ≤ Real.sqrt (m : ℝ) := Real.nat_sqrt_le_real_sqrt
    _ ≤ Real.sqrt (q : ℝ) := by
        apply Real.sqrt_le_sqrt
        exact_mod_cast hmq
  have hhigh : Real.sqrt (q : ℝ) < (n : ℝ) + 1 := by
    rw [Real.sqrt_lt' (by positivity)]
    have h2 : m + 1 ≤ (n + 1) ^ 2 := Nat.lt_succ_sqrt' m
    have h3 : (q : ℝ) < (m : ℝ) + 1 := by exact_mod_cast hqm
    calc (q : ℝ) < (m : ℝ) + 1 := h3
    _ ≤ ((n : ℝ) + 1) ^ 2 := by exact_mod_cast h2
  symm
  rw [Int.floor_eq_iff]
  constructor
  · exact_mod_cast hlow
  · exact_mod_cast hhigh

/-- The computable `truncNorm` is exactly the truncation toward zero of the
Euclidean norm of the vector (floor, since the norm is nonnegative). -/
theorem truncNorm_eq_floor_sqrt (t : Vec3) :
    truncNorm t = ⌊Real.sqrt ((t.x ^ 2 + t.y ^ 2 + t.z ^ 2 : ℚ) : ℝ)⌋ := by
  have hq : (0 : ℚ) ≤ t.x ^ 2 + t.y ^ 2 + t.z ^ 2 := by positivity
  exact natSqrt_floor_eq_floor_sqrt _ hq

/-- C6: for every Marker, `pixel_centre` equals
`(top_left.x + size/2 - 1, bottom_right.y - size/2)` where `top_left` is
the first and `bottom_right` the third entry of the corner polygon; in
particular, for top_left = (10,10), size = 200 and bottom_right =
(209,209) it equals (109, 109) — the `-1` offset applies to x only. -/
theorem pixel_centre_formula (m : Marker) (tl tr br bl : ℚ × ℚ)
    (h : m.pixel_corners = [tl, tr, br, bl]) :
    m.pixelCentre =
      some ⟨tl.1 + (m.size : ℚ) / 2 - 1, br.2 - (m.size : ℚ) / 2⟩ ∧
    (Marker.mk 25 [(10, 10), (209, 10), (209, 209), (10, 209)] 200
        none none).pixelCentre = some ⟨109, 109⟩ := by
  constructor
  · simp [Marker.pixelCentre, h]
  · simp [Marker.pixelCentre]
    norm_num

/-- C6 witness: the literal instance of the pixel-centre formula. -/
theorem pixel_centre_formula_witness :
    (Marker.mk 25 [(10, 10), (209, 10), (209, 209), (10, 209)] 200
        none none).pixelCentre = some ⟨109, 109⟩ :=
  (pixel_centre_formula
    (Marker.mk 25 [(10, 10), (209, 10), (209, 209), (10, 209)] 200
        none none)
    (10, 10) (209, 10) (209, 209) (10, 209) rfl).2

/-- C4: a Marker constructed with precalculated vectors never invokes the
external pose estimator, for any sequence of subsequent accessor calls of
any length; the internal pose-vector resolution returns the supplied pair
verbatim (for every estimator, so the result is estimator-independent). -/
theorem eager_marker_never_estimates (e : Estimator) (m : Marker)
    (v : Vec3 × Vec3) (h : m.precalculated_vectors = some v) :
    Marker.getPoseVectors e m = .ok v ∧
    ∀ calls : List PoseAccessor, m.estimatorInvocations calls = 0 := by
  refine ⟨by simp [Marker.getPoseVectors, h], fun calls => ?_⟩
  simp only [Marker.estimatorInvocations, Marker.estimatorCallsPerResolution, h]
  split <;> rfl

/-- C4 witness: a concrete eager Marker, a concrete estimator and a
concrete nonempty call sequence. -/
theorem eager_marker_never_estimates_witness :
    Marker.getPoseVectors (fun _ _ _ => (⟨0, 0, 0⟩, ⟨0, 0, 0⟩))
        (Marker.mk 1 [] 2 none (some (⟨1, 2, 3⟩, ⟨4, 5, 6⟩)))
      = .ok (⟨1, 2, 3⟩, ⟨4, 5, 6⟩) ∧
    (Marker.mk 1 [] 2 none (some (⟨1, 2, 3⟩, ⟨4, 5, 6⟩))).estimatorInvocations
        [.distance, .spherical, .asDict, .distance] = 0 := by
  have h := eager_marker_never_estimates
    (fun _ _ _ => (⟨0, 0, 0⟩, ⟨0, 0, 0⟩))
    (Marker.mk 1 [] 2 none (some (⟨1, 2, 3⟩, ⟨4, 5, 6⟩)))
    (⟨1, 2, 3⟩, ⟨4, 5, 6⟩) rfl
  exact ⟨h.1, h.2 [.distance, .spherical, .asDict, .distance]⟩

/-- C10: when both calibration parameters and precalculated vectors are
supplied, the precalculated vectors take priority: pose resolution returns
the supplied pair, the estimator is never invoked, and every pose-derived
accessor gives the same result as on the sibling Marker whose calibration
parameters are erased — the calibration parameters are ignored entirely. -/
theorem precalculated_overrides_calibration (e : Estimator) (a : At2)
    (m : Marker) (cp : CalibrationParameters) (v : Vec3 × Vec3)
    (hc : m.calibration_params = some cp)
    (hv : m.precalculated_vectors = some v) :
    Marker.getPoseVectors e m = .ok v ∧
    (∀ calls : List PoseAccessor, m.estimatorInvocations calls = 0) ∧
    Marker.distance e m =
      Marker.distance e { m with calibration_params := none } ∧
    Marker.orientation e m =
      Marker.orientation e { m with calibration_params := none } ∧
    Marker.cartesian e m =
      Marker.cartesian e { m with calibration_params := none } ∧
    Marker.spherical e a m =
      Marker.spherical e a { m with calibration_params := none } ∧
    Marker.asDict e m =
      Marker.asDict e { m with calibration_params := none } := by
  have hp : Marker.getPoseVectors e m = .ok v := by
    simp [Marker.getPoseVectors, hv]
  have hp' : Marker.getPoseVectors e { m with calibration_params := none }
      = .ok v := by
    simp [Marker.getPoseVectors, hv]
  refine ⟨hp, fun calls => ?_, ?_, ?_, ?_, ?_, ?_⟩
  · simp only [Marker.estimatorInvocations, Marker.estimatorCallsPerResolution, hv]
    split <;> rfl
  · simp [Marker.distance, Marker.tvec, hp, hp']
  · simp [Marker.orientation, Marker.rvec, hp, hp']
  · simp [Marker.cartesian, Marker.tvec, hp, hp']
  · simp [Marker.spherical, Marker.tvec, hp, hp']
  · simp [Marker.asDict, hp, hp']

/-- C10 witness: a concrete Marker with both calibration parameters and
precalculated vectors. -/
theorem precalculated_overrides_calibration_witness :
    Marker.getPoseVectors (fun _ _ _ => (⟨9, 9, 9⟩, ⟨9, 9, 9⟩))
        (Marker.mk 7 [] 3 (some ⟨[[1]], [0]⟩) (some (⟨1, 0, 0⟩, ⟨0, 0, 2⟩)))
      = .ok (⟨1, 0, 0⟩, ⟨0, 0, 2⟩) ∧
    (Marker.mk 7 [] 3 (some ⟨[[1]], [0]⟩)
        (some (⟨1, 0, 0⟩, ⟨0, 0, 2⟩))).estimatorInvocations [.cartesian] = 0 := by
  have h := precalculated_overrides_calibration
    (fun _ _ _ => (⟨9, 9, 9⟩, ⟨9, 9, 9⟩)) (fun _ _ => 0)
    (Marker.mk 7 [] 3 (some ⟨[[1]], [0]⟩) (some (⟨1, 0, 0⟩, ⟨0, 0, 2⟩)))
    ⟨[[1]], [0]⟩ (⟨1, 0, 0⟩, ⟨0, 0, 2⟩) rfl rfl
  exact ⟨h.1, h.2.1 [.cartesian]⟩

/-- C2: for a Marker with no calibration parameters and no precalculated
vectors, each of `distance`, `orientation`, `cartesian` and `spherical`
fails with the (one and only) `MissingCalibrationsError`, propagated
unchanged from pose resolution; `pixel_corners`, `pixel_centre`, `id` and
`size` are functions of the id/corners/size fields alone, so they never
touch pose resolution and cannot raise this error. -/
theorem missing_calibration_propagation (e : Estimator) (a : At2)
    (m : Marker) (h1 : m.calibration_params = none)
    (h2 : m.precalculated_vectors = none) :
    Marker.getPoseVectors e m = .error ⟨⟩ ∧
    Marker.distance e m = .error ⟨⟩ ∧
    Marker.orientation e m = .error ⟨⟩ ∧
    Marker.cartesian e m = .error ⟨⟩ ∧
    Marker.spherical e a m = .error ⟨⟩ ∧
    (∀ m' : Marker, m'.id = m.id → m'.pixel_corners = m.pixel_corners →
      m'.size = m.size →
      m'.pixelCorners = m.pixelCorners ∧ m'.pixelCentre = m.pixelCentre) := by
  have hp : Marker.getPoseVectors e m = .error ⟨⟩ := by
    simp [Marker.getPoseVectors, h1, h2]
  refine ⟨hp, ?_, ?_, ?_, ?_, fun m' hid hcor hsz => ?_⟩
  · simp [Marker.distance, Marker.tvec, hp, Except.map]
  · simp [Marker.orientation, Marker.rvec, hp, Except.map]
  · simp [Marker.cartesian, Marker.tvec, hp, Except.map]
  · simp [Marker.spherical, Marker.tvec, hp, Except.map]
  · exact ⟨by simp [Marker.pixelCorners, hcor],
      by simp [Marker.pixelCentre, hcor, hsz]⟩

/-- C2 witness: a concrete lazy Marker with no calibration parameters. -/
theorem missing_calibration_propagation_witness :
    Marker.distance (fun _ _ _ => (⟨0, 0, 0⟩, ⟨0, 0, 0⟩))
        (Marker.mk 25 [(10, 10), (209, 10), (209, 209), (10, 209)] 200
          none none) = .error ⟨⟩ ∧
    Marker.spherical (fun _ _ _ => (⟨0, 0, 0⟩, ⟨0, 0, 0⟩)) (fun _ _ => 0)
        (Marker.mk 25 [(10, 10), (209, 10), (209, 209), (10, 209)] 200
          none none) = .error ⟨⟩ := by
  have h := missing_calibration_propagation
    (fun _ _ _ => (⟨0, 0, 0⟩, ⟨0, 0, 0⟩)) (fun _ _ => 0)
    (Marker.mk 25 [(10, 10), (209, 10), (209, 209), (10, 209)] 200
      none none) rfl rfl
  exact ⟨h.2.1, h.2.2.2.2.1⟩

/-- C3: `as_dict` never fails (it is a total function in this embedding:
the only domain error, `MissingCalibrationsError`, is caught inside it);
its result always carries `id`, `size` and `pixel_corners`, carries `rvec`
and `tvec` exactly when pose resolution succeeds, and when pose resolution
fails with `MissingCalibrationsError` the key set is exactly
`{id, size, pixel_corners}` (both optional keys absent). -/
theorem as_dict_graceful_degradation (e : Estimator) (m : Marker) :
    (Marker.asDict e m).id = m.id ∧
    (Marker.asDict e m).size = m.size ∧
    (Marker.asDict e m).pixel_corners = m.pixel_corners ∧
    (((Marker.asDict e m).rvec.isSome ∧ (Marker.asDict e m).tvec.isSome) ↔
      ∃ v, Marker.getPoseVectors e m = .ok v) ∧
    (∀ err : MissingCalibrationsError,
      Marker.getPoseVectors e m = .error err →
      (Marker.asDict e m).rvec = none ∧ (Marker.asDict e m).tvec = none) := by
  cases hp : Marker.getPoseVectors e m with
  | ok v =>
      obtain ⟨r, t⟩ := v
      simp [Marker.asDict, hp]
  | error err =>
      simp [Marker.asDict, hp]

/-- C3 witness: a concrete lazy Marker without calibration, on which
`as_dict` carries exactly the three unconditional keys. -/
theorem as_dict_graceful_degradation_witness :
    (Marker.asDict (fun _ _ _ => (⟨0, 0, 0⟩, ⟨0, 0, 0⟩))
        (Marker.mk 25 [(10, 10), (209, 10), (209, 209), (10, 209)] 200
          none none)).rvec = none ∧
    (Marker.asDict (fun _ _ _ => (⟨0, 0, 0⟩, ⟨0, 0, 0⟩))
        (Marker.mk 25 [(10, 10), (209, 10), (209, 209), (10, 209)] 200
          none none)).tvec = none := by
  have h := as_dict_graceful_degradation
    (fun _ _ _ => (⟨0, 0, 0⟩, ⟨0, 0, 0⟩))
    (Marker.mk 25 [(10, 10), (209, 10), (209, 209), (10, 209)] 200
      none none)
  exact h.2.2.2.2 ⟨⟩ rfl

/-- C1: for an eager Marker, `from_dict (as_dict m)` reconstructs a Marker
whose `id`, `size`, `pixel_corners`, `distance`, `orientation`,
`cartesian` and `spherical` all equal the original's (exactly, in this
exact-arithmetic embedding), and the reconstruction is itself eager. -/
theorem round_trip_with_pose (e : Estimator) (a : At2) (m : Marker)
    (v : Vec3 × Vec3) (h : m.precalculated_vectors = some v) :
    (Marker.fromDict (Marker.asDict e m)).id = m.id ∧
    (Marker.fromDict (Marker.asDict e m)).size = m.size ∧
    (Marker.fromDict (Marker.asDict e m)).pixelCorners = m.pixelCorners ∧
    Marker.distance e (Marker.fromDict (Marker.asDict e m)) =
      Marker.distance e m ∧
    Marker.orientation e (Marker.fromDict (Marker.asDict e m)) =
      Marker.orientation e m ∧
    Marker.cartesian e (Marker.fromDict (Marker.asDict e m)) =
      Marker.cartesian e m ∧
    Marker.spherical e a (Marker.fromDict (Marker.asDict e m)) =
      Marker.spherical e a m ∧
    (Marker.fromDict (Marker.asDict e m)).isEager = true := by
  obtain ⟨r, t⟩ := v
  have hp : Marker.getPoseVectors e m = .ok (r, t) := by
    simp [Marker.getPoseVectors, h]
  have hd : Marker.asDict e m =
      { id := m.id, size := m.size, pixel_corners := m.pixel_corners,
        rvec := some r, tvec := some t } := by
    simp [Marker.asDict, hp]
  have hp2 : Marker.getPoseVectors e (Marker.fromDict (Marker.asDict e m))
      = .ok (r, t) := by
    simp [hd, Marker.fromDict, Marker.getPoseVectors]
  refine ⟨by simp [hd, Marker.fromDict], by simp [hd, Marker.fromDict],
    by simp [hd, Marker.fromDict, Marker.pixelCorners], ?_, ?_, ?_, ?_,
    by simp [hd, Marker.fromDict, Marker.isEager]⟩
  · simp [Marker.distance, Marker.tvec, hp, hp2]
  · simp [Marker.orientation, Marker.rvec, hp, hp2]
  · simp [Marker.cartesian, Marker.tvec, hp, hp2]
  · simp [Marker.spherical, Marker.tvec, hp, hp2]

/-- C1 witness: round-trip of a concrete eager Marker. -/
theorem round_trip_with_pose_witness :
    (Marker.fromDict (Marker.asDict (fun _ _ _ => (⟨0, 0, 0⟩, ⟨0, 0, 0⟩))
        (Marker.mk 25 [(10, 10), (209, 10), (209, 209), (10, 209)] 200
          none (some (⟨1, 2, 3⟩, ⟨0, 0, 4⟩))))).isEager = true ∧
    Marker.distance (fun _ _ _ => (⟨0, 0, 0⟩, ⟨0, 0, 0⟩))
      (Marker.fromDict (Marker.asDict (fun _ _ _ => (⟨0, 0, 0⟩, ⟨0, 0, 0⟩))
        (Marker.mk 25 [(10, 10), (209, 10), (209, 209), (10, 209)] 200
          none (some (⟨1, 2, 3⟩, ⟨0, 0, 4⟩))))) =
    Marker.distance (fun _ _ _ => (⟨0, 0, 0⟩, ⟨0, 0, 0⟩))
      (Marker.mk 25 [(10, 10), (209, 10), (209, 209), (10, 209)] 200
        none (some (⟨1, 2, 3⟩, ⟨0, 0, 4⟩))) := by
  have h := round_trip_with_pose (fun _ _ _ => (⟨0, 0, 0⟩, ⟨0, 0, 0⟩))
    (fun _ _ => 0)
    (Marker.mk 25 [(10, 10), (209, 10), (209, 209), (10, 209)] 200
      none (some (⟨1, 2, 3⟩, ⟨0, 0, 4⟩)))
    (⟨1, 2, 3⟩, ⟨0, 0, 4⟩) rfl
  exact ⟨h.2.2.2.2.2.2.2, h.2.2.2.1⟩

/-- C5: for a lazy Marker with no calibration parameters,
`from_dict (as_dict m)` yields a Marker with matching `id`, `size` and
`pixel_corners` that is not eager and fails with
`MissingCalibrationsError` on every pose-dependent access; and in general
`from_dict` yields an eager Marker exactly when both the `rvec` and the
`tvec` key are present, and always a Marker carrying no calibration
parameters. -/
theorem round_trip_without_pose (e e' : Estimator) (a : At2) (m : Marker)
    (h1 : m.calibration_params = none)
    (h2 : m.precalculated_vectors = none) :
    (Marker.fromDict (Marker.asDict e m)).id = m.id ∧
    (Marker.fromDict (Marker.asDict e m)).size = m.size ∧
    (Marker.fromDict (Marker.asDict e m)).pixelCorners = m.pixelCorners ∧
    (Marker.fromDict (Marker.asDict e m)).isEager = false ∧
    Marker.distance e' (Marker.fromDict (Marker.asDict e m)) = .error ⟨⟩ ∧
    Marker.orientation e' (Marker.fromDict (Marker.asDict e m)) =
      .error ⟨⟩ ∧
    Marker.cartesian e' (Marker.fromDict (Marker.asDict e m)) = .error ⟨⟩ ∧
    Marker.spherical e' a (Marker.fromDict (Marker.asDict e m)) =
      .error ⟨⟩ ∧
    (∀ d : MarkerDictData,
      ((Marker.fromDict d).isEager = true ↔
        d.rvec.isSome = true ∧ d.tvec.isSome = true) ∧
      (Marker.fromDict d).calibration_params = none) := by
  have hp : Marker.getPoseVectors e m = .error ⟨⟩ := by
    simp [Marker.getPoseVectors, h1, h2]
  have hd : Marker.asDict e m =
      { id := m.id, size := m.size, pixel_corners := m.pixel_corners,
        rvec := none, tvec := none } := by
    simp [Marker.asDict, hp]
  have hp2 : Marker.getPoseVectors e' (Marker.fromDict (Marker.asDict e m))
      = .error ⟨⟩ := by
    simp [hd, Marker.fromDict, Marker.getPoseVectors]
  refine ⟨by simp [hd, Marker.fromDict], by simp [hd, Marker.fromDict],
    by simp [hd, Marker.fromDict, Marker.pixelCorners],
    by simp [hd, Marker.fromDict, Marker.isEager], ?_, ?_, ?_, ?_,
    fun d => ⟨?_, by simp [Marker.fromDict]⟩⟩
  · simp [Marker.distance, Marker.tvec, hp2, Except.map]
  · simp [Marker.orientation, Marker.rvec, hp2, Except.map]
  · simp [Marker.cartesian, Marker.tvec, hp2, Except.map]
  · simp [Marker.spherical, Marker.tvec, hp2, Except.map]
  · cases hr : d.rvec <;> cases ht : d.tvec <;>
      simp [Marker.fromDict, Marker.isEager, hr, ht]

/-- C5 witness: round-trip of a concrete lazy Marker and a concrete
mapping with a `rvec` key but no `tvec` key (which yields a lazy Marker). -/
theorem round_trip_without_pose_witness :
    (Marker.fromDict (Marker.asDict (fun _ _ _ => (⟨0, 0, 0⟩, ⟨0, 0, 0⟩))
        (Marker.mk 25 [(10, 10), (209, 10), (209, 209), (10, 209)] 200
          none none))).isEager = false ∧
    Marker.distance (fun _ _ _ => (⟨0, 0, 0⟩, ⟨0, 0, 0⟩))
      (Marker.fromDict (Marker.asDict (fun _ _ _ => (⟨0, 0, 0⟩, ⟨0, 0, 0⟩))
        (Marker.mk 25 [(10, 10), (209, 10), (209, 209), (10, 209)] 200
          none none))) = .error ⟨⟩ ∧
    (Marker.fromDict
        (MarkerDictData.mk 3 9 [] (some ⟨1, 2, 3⟩) none)).isEager = false := by
  have h := round_trip_without_pose
    (fun _ _ _ => (⟨0, 0, 0⟩, ⟨0, 0, 0⟩))
    (fun _ _ _ => (⟨0, 0, 0⟩, ⟨0, 0, 0⟩)) (fun _ _ => 0)
    (Marker.mk 25 [(10, 10), (209, 10), (209, 209), (10, 209)] 200
      none none) rfl rfl
  refine ⟨h.2.2.2.1, h.2.2.2.2.1, ?_⟩
  have h9 := (h.2.2.2.2.2.2.2.2
    (MarkerDictData.mk 3 9 [] (some ⟨1, 2, 3⟩) none)).1
  cases he : (Marker.fromDict
      (MarkerDictData.mk 3 9 [] (some ⟨1, 2, 3⟩) none)).isEager
  · rfl
  · have := h9.mp he
    simp at this

/-- C8: whenever the pose vectors are available, the `dist` component of
`spherical` exactly equals the value of the `distance` accessor. -/
theorem spherical_dist_eq_distance (e : Estimator) (a : At2) (m : Marker)
    (v : Vec3 × Vec3) (h : Marker.getPoseVectors e m = .ok v) :
    ∃ s : Spherical, Marker.spherical e a m = .ok s ∧
      Marker.distance e m = .ok s.dist := by
  obtain ⟨r, t⟩ := v
  exact ⟨⟨a t.y t.z, a t.x t.z, truncNorm t⟩,
    by simp [Marker.spherical, Marker.tvec, h, Except.map],
    by simp [Marker.distance, Marker.tvec, h, Except.map]⟩

/-- C8 witness: a concrete eager Marker on which `spherical.dist` equals
`distance`. -/
theorem spherical_dist_eq_distance_witness :
    ∃ s : Spherical,
      Marker.spherical (fun _ _ _ => (⟨0, 0, 0⟩, ⟨0, 0, 0⟩)) (fun _ _ => 0)
        (Marker.mk 25 [] 200 none (some (⟨1, 2, 3⟩, ⟨2, 3, 6⟩))) = .ok s ∧
      Marker.distance (fun _ _ _ => (⟨0, 0, 0⟩, ⟨0, 0, 0⟩))
        (Marker.mk 25 [] 200 none (some (⟨1, 2, 3⟩, ⟨2, 3, 6⟩)))
        = .ok s.dist :=
  spherical_dist_eq_distance (fun _ _ _ => (⟨0, 0, 0⟩, ⟨0, 0, 0⟩))
    (fun _ _ => 0)
    (Marker.mk 25 [] 200 none (some (⟨1, 2, 3⟩, ⟨2, 3, 6⟩)))
    (⟨1, 2, 3⟩, ⟨2, 3, 6⟩) rfl

/-- C9: whenever the pose vectors are available, `distance` returns the
Euclidean norm of the translation vector converted to an integer by
truncation toward zero; the norm is nonnegative (second conjunct), so
truncation toward zero is its floor. -/
theorem distance_truncates_norm (e : Estimator) (m : Marker) (r t : Vec3)
    (h : Marker.getPoseVectors e m = .ok (r, t)) :
    Marker.distance e m =
      .ok ⌊Real.sqrt ((t.x ^ 2 + t.y ^ 2 + t.z ^ 2 : ℚ) : ℝ)⌋ ∧
    0 ≤ Real.sqrt ((t.x ^ 2 + t.y ^ 2 + t.z ^ 2 : ℚ) : ℝ) := by
  refine ⟨?_, Real.sqrt_nonneg _⟩
  rw [← truncNorm_eq_floor_sqrt]
  simp [Marker.distance, Marker.tvec, h, Except.map]

/-- C9 witness: a concrete eager Marker with translation vector (1,1,1),
whose distance is the truncation of √3. -/
theorem distance_truncates_norm_witness :
    Marker.distance (fun _ _ _ => (⟨0, 0, 0⟩, ⟨0, 0, 0⟩))
        (Marker.mk 1 [] 5 none (some (⟨0, 0, 0⟩, ⟨1, 1, 1⟩))) =
      .ok ⌊Real.sqrt (((1 : ℚ) ^ 2 + (1 : ℚ) ^ 2 + (1 : ℚ) ^ 2 : ℚ) : ℝ)⌋ ∧
    0 ≤ Real.sqrt (((1 : ℚ) ^ 2 + (1 : ℚ) ^ 2 + (1 : ℚ) ^ 2 : ℚ) : ℝ) :=
  distance_truncates_norm (fun _ _ _ => (⟨0, 0, 0⟩, ⟨0, 0, 0⟩))
    (Marker.mk 1 [] 5 none (some (⟨0, 0, 0⟩, ⟨1, 1, 1⟩)))
    ⟨0, 0, 0⟩ ⟨1, 1, 1⟩ rfl

/-- C7 counterexample: on the eager Marker with translation vector
(0, 0, 3/2) the `dist` component of `spherical` is 1, while the Euclidean
norm of the translation vector is 3/2 — so `dist` is not the Euclidean
norm of the translation vector as the claim states. -/
theorem spherical_dist_norm_counterexample :
    Marker.spherical (fun _ _ _ => (⟨0, 0, 0⟩, ⟨0, 0, 0⟩)) (fun _ _ => 0)
        (Marker.mk 1 [] 5 none (some (⟨0, 0, 0⟩, ⟨0, 0, 3 / 2⟩)))
      = .ok ⟨0, 0, 1⟩ ∧
    Real.sqrt
        (((0 : ℚ) ^ 2 + (0 : ℚ) ^ 2 + (3 / 2 : ℚ) ^ 2 : ℚ) : ℝ) = 3 / 2 ∧
    (1 : ℝ) ≠ 3 / 2 := by
  refine ⟨?_, ?_, by norm_num⟩
  · have ht : truncNorm ⟨0, 0, 3 / 2⟩ = 1 := by
      have h1 : ((0 : ℚ) ^ 2 + (0 : ℚ) ^ 2 + (3 / 2 : ℚ) ^ 2) = 9 / 4 := by
        norm_num
      rw [truncNorm]
      simp only [h1]
      show ((Nat.sqrt (Int.toNat ⌊(9 / 4 : ℚ)⌋) : ℤ)) = 1
      have h2 : ⌊(9 / 4 : ℚ)⌋ = 2 := by norm_num [Int.floor_eq_iff]
      rw [h2]
      have h3 : Nat.sqrt 2 = 1 := by
        have h4 := Nat.sqrt_add_eq 1 (a := 1) (by omega)
        simpa using h4
      simp [h3]
    simp [Marker.spherical, Marker.tvec, Marker.getPoseVectors, Except.map,
      ht]
  · have hq : (((0 : ℚ) ^ 2 + (0 : ℚ) ^ 2 + (3 / 2 : ℚ) ^ 2 : ℚ) : ℝ)
        = (3 / 2 : ℝ) ^ 2 := by norm_num
    rw [hq, Real.sqrt_sq (by norm_num)]

/-- C7 amended: whenever the pose vectors are available, `spherical`
returns the triple (atan2(t.y, t.z), atan2(t.x, t.z), dist) where `dist`
is the Euclidean norm of the translation vector truncated toward zero —
the value of the `distance` accessor — rather than the exact norm. -/
theorem spherical_components (e : Estimator) (a : At2) (m : Marker)
    (r t : Vec3) (h : Marker.getPoseVectors e m = .ok (r, t)) :
    Marker.spherical e a m =
      .ok ⟨a t.y t.z, a t.x t.z,
        ⌊Real.sqrt ((t.x ^ 2 + t.y ^ 2 + t.z ^ 2 : ℚ) : ℝ)⌋⟩ ∧
    Marker.distance e m =
      .ok ⌊Real.sqrt ((t.x ^ 2 + t.y ^ 2 + t.z ^ 2 : ℚ) : ℝ)⌋ := by
  rw [← truncNorm_eq_floor_sqrt]
  constructor <;>
    simp [Marker.spherical, Marker.distance, Marker.tvec, h, Except.map]

/-- C7 amended witness: a concrete eager Marker with translation vector
(2, 3, 6). -/
theorem spherical_components_witness :
    Marker.spherical (fun _ _ _ => (⟨0, 0, 0⟩, ⟨0, 0, 0⟩)) (fun p q => p / q)
        (Marker.mk 1 [] 5 none (some (⟨0, 0, 0⟩, ⟨2, 3, 6⟩))) =
      .ok ⟨(3 : ℚ) / 6, (2 : ℚ) / 6,
        ⌊Real.sqrt (((2 : ℚ) ^ 2 + (3 : ℚ) ^ 2 + (6 : ℚ) ^ 2 : ℚ) : ℝ)⌋⟩ ∧
    Marker.distance (fun _ _ _ => (⟨0, 0, 0⟩, ⟨0, 0, 0⟩))
        (Marker.mk 1 [] 5 none (some (⟨0, 0, 0⟩, ⟨2, 3, 6⟩))) =
      .ok ⌊Real.sqrt (((2 : ℚ) ^ 2 + (3 : ℚ) ^ 2 + (6 : ℚ) ^ 2 : ℚ) : ℝ)⌋ :=
  spherical_components (fun _ _ _ => (⟨0, 0, 0⟩, ⟨0, 0, 0⟩))
    (fun p q => p / q)
    (Marker.mk 1 [] 5 none (some (⟨0, 0, 0⟩, ⟨2, 3, 6⟩)))
    ⟨0, 0, 0⟩ ⟨2, 3, 6⟩ rfl

end Zoloto
